import Mathlib

/-
  Verification development for the road-accident pipeline wrapper
  (run.py): command-line option handling, environment and data-file
  checks, and delegation to the analysis script as a child process.

  The wrapper is embedded shallowly:
  * the filesystem is a finite map from paths to directories/files,
  * console output and the process-spawn effect are an explicit event
    log threaded through every operation,
  * the Python float stored by the sample option is modelled exactly as
    an IEEE-754 binary64 value (sign, integer mantissa magnitude and
    exponent, with signed zeros and infinities), with correctly-rounded
    decimal parsing and shortest round-tripping decimal rendering (this
    is the documented behaviour of float() and str() in Python 3).
-/

set_option maxHeartbeats 1000000
set_option maxRecDepth 2000

namespace RunWrapper

/-! ## Exact model of Python binary64 floats -/

/-- Exact signed fraction: a sign, a natural numerator and a positive
    natural denominator, not necessarily reduced. This is the exact
    value of a decimal literal before rounding; the sign is kept
    separately so that a negative zero literal is represented
    faithfully. -/
structure Frac where
  neg : Bool
  num : ℕ
  den : ℕ
deriving Repr, DecidableEq

/-- An IEEE-754 binary64 value: a sign, a mantissa magnitude and an
    exponent, with value plus-minus mag times two to the power
    (exp minus 52). For normal values the magnitude lies in the
    closed-open interval from two to the 52nd to two to the 53rd and
    the representation is canonical; subnormals and zeros carry exp
    equal to minus 1022 (zero has magnitude zero, and the sign encodes
    the IEEE signed zero); the two infinities are the markers with
    magnitude one and exp 1024. This is the value argparse stores for
    the sample option after float conversion. -/
structure B64 where
  neg : Bool
  mag : ℕ
  exp : ℤ
deriving Repr, DecidableEq

/-- Nearest integer to the exact quotient of two naturals, ties to
    even (the IEEE-754 default rounding). -/
def roundHalfEvenDiv (a d : ℕ) : ℕ :=
  let q := a / d
  let r := a % d
  if 2 * r < d then q
  else if d < 2 * r then q + 1
  else if q % 2 = 0 then q else q + 1

/-- Fuelled binary normalisation of the fraction a over d: double the
    smaller side until the quotient lies in the closed-open interval
    from one to two, tracking the base-two exponent. -/
def norm2Pair : ℕ → ℕ → ℕ → ℤ → ℕ × ℕ × ℤ
  | 0, a, d, e => (a, d, e)
  | f + 1, a, d, e =>
    if a < d then norm2Pair f (2 * a) d (e - 1)
    else if 2 * d ≤ a then norm2Pair f a (2 * d) (e + 1)
    else (a, d, e)

/-- Base-two exponent of a positive fraction. The fuel covers the
    whole binary64 range with ample margin; beyond it the exponent is
    only ever reported even further outside the representable range,
    which the rounding below maps to the same infinity or zero as the
    true exponent would. -/
def exp2Pair (a d : ℕ) : ℤ := (norm2Pair 2400 a d 0).2.2

/-- Round the positive fraction a over d to the nearest binary64
    value (round-to-nearest, ties-to-even), returning mantissa
    magnitude and exponent; magnitudes that round past the largest
    finite double overflow to the infinity marker, exactly as Python
    float() returns inf on an overflowing literal. -/
def roundPosB64Pair (a d : ℕ) : ℕ × ℤ :=
  let e := exp2Pair a d
  if e < -1022 then
    (roundHalfEvenDiv (a * 2 ^ 1074) d, -1022)
  else if 1023 < e then (1, 1024)
  else
    let m :=
      if e ≤ 52 then roundHalfEvenDiv (a * 2 ^ (52 - e).toNat) d
      else roundHalfEvenDiv a (d * 2 ^ (e - 52).toNat)
    if m = 2 ^ 53 then
      if e = 1023 then (1, 1024) else (2 ^ 52, e + 1)
    else (m, e)

/-- Round an exact fraction to the nearest binary64 value. This is the
    value Python float() yields on a decimal literal (CPython parsing
    is correctly rounded, returns inf on overflow, and keeps the sign
    of a negative zero). -/
def roundToB64 (x : Frac) : B64 :=
  if x.num = 0 then { neg := x.neg, mag := 0, exp := -1022 }
  else
    let p := roundPosB64Pair x.num x.den
    { neg := x.neg, mag := p.1, exp := p.2 }

/-- Magnitude of a finite binary64 number as an exact fraction. -/
def b64AbsFrac (x : B64) : ℕ × ℕ :=
  if 52 ≤ x.exp then (x.mag * 2 ^ (x.exp - 52).toNat, 1)
  else (x.mag, 2 ^ (52 - x.exp).toNat)

/-- Fuelled decimal normalisation of the fraction a over d: scale the
    smaller side by ten until the quotient lies in the closed-open
    interval from one to ten, tracking the base-ten exponent. -/
def norm10Pair : ℕ → ℕ → ℕ → ℤ → ℕ × ℕ × ℤ
  | 0, a, d, e => (a, d, e)
  | f + 1, a, d, e =>
    if a < d then norm10Pair f (10 * a) d (e - 1)
    else if 10 * d ≤ a then norm10Pair f a (10 * d) (e + 1)
    else (a, d, e)

/-- Base-ten exponent of a positive fraction. -/
def exp10Pair (a d : ℕ) : ℤ := (norm10Pair 800 a d 0).2.2

/-- Nearest decimal approximation of the positive fraction a over d
    with the given number of significant digits: returns the digit
    block and the base-ten exponent of the leading digit. -/
def digitsAtPair (a d : ℕ) (nd : ℕ) : ℕ × ℤ :=
  let k := exp10Pair a d
  let D :=
    if k ≤ (nd : ℤ) - 1 then roundHalfEvenDiv (a * 10 ^ ((nd : ℤ) - 1 - k).toNat) d
    else roundHalfEvenDiv a (d * 10 ^ (k - ((nd : ℤ) - 1)).toNat)
  if D = 10 ^ nd then (10 ^ (nd - 1), k + 1) else (D, k)

/-- Exact positive value of a digit block D with leading-digit
    exponent k and nd significant digits, that is D times ten to the
    power (k minus nd plus one). -/
def fracOfDigits (D : ℕ) (k : ℤ) (nd : ℕ) : Frac :=
  if (nd : ℤ) - 1 ≤ k then
    { neg := false, num := D * 10 ^ (k - (nd : ℤ) + 1).toNat, den := 1 }
  else { neg := false, num := D, den := 10 ^ ((nd : ℤ) - 1 - k).toNat }

/-- Shortest decimal digit block that parses back (with correct
    rounding) to the given positive finite binary64 value: this is how
    Python str renders a float. At each length the nearest digit block
    and its two neighbours are the only blocks that can lie inside the
    rounding interval of the value (the interval is one unit in the
    last place wide, one and a half at a power of two), so trying
    these three detects exactly whether some block of that length
    round-trips, and among the feasible ones the nearest — the rounded
    block when it round-trips, otherwise the one feasible neighbour —
    is the block CPython emits. The neighbour guards only skip blocks
    whose canonical form is shorter, which a shorter length has
    already decided. Seventeen significant digits always round-trip,
    so the fuel is exhaustive for binary64 inputs. -/
def shortestFrom (x : B64) : ℕ → ℕ → ℕ × ℤ × ℕ
  | _, 0 =>
    let p := b64AbsFrac x
    let t := digitsAtPair p.1 p.2 17
    (t.1, t.2, 17)
  | nd, f + 1 =>
    let p := b64AbsFrac x
    let k := exp10Pair p.1 p.2
    let D :=
      if k ≤ (nd : ℤ) - 1 then roundHalfEvenDiv (p.1 * 10 ^ ((nd : ℤ) - 1 - k).toNat) p.2
      else roundHalfEvenDiv p.1 (p.2 * 10 ^ (k - ((nd : ℤ) - 1)).toNat)
    let c0 : ℕ × ℤ := if D = 10 ^ nd then (10 ^ (nd - 1), k + 1) else (D, k)
    if roundToB64 (fracOfDigits c0.1 c0.2 nd) = x then (c0.1, c0.2, nd)
    else if 10 ^ (nd - 1) ≤ D - 1 ∧ roundToB64 (fracOfDigits (D - 1) k nd) = x then
      (D - 1, k, nd)
    else if D + 1 ≤ 10 ^ nd - 1 ∧ roundToB64 (fracOfDigits (D + 1) k nd) = x then
      (D + 1, k, nd)
    else shortestFrom x (nd + 1) f

/-- Two-digit zero-padded decimal rendering of a natural number, as
    used in the exponent of Python scientific float notation. -/
def padTwo (n : ℕ) : String := if n < 10 then "0" ++ toString n else toString n

/-- Render a digit block with leading-digit exponent k and nd
    significant digits the way Python str formats a float: fixed-point
    notation when the exponent is between minus four and fifteen, and
    scientific notation otherwise. -/
def formatDigits (D : ℕ) (k : ℤ) (nd : ℕ) : String :=
  let ds := toString D
  let dl := ds.toList
  if k < -4 ∨ 16 ≤ k then
    let m := if nd ≤ 1 then ds
             else String.mk (dl.take 1) ++ "." ++ String.mk (dl.drop 1)
    m ++ "e" ++ (if 0 ≤ k then "+" ++ padTwo k.toNat else "-" ++ padTwo (-k).toNat)
  else if 0 ≤ k then
    let ki := k.toNat
    if nd ≤ ki + 1 then
      ds ++ String.mk (List.replicate (ki + 1 - nd) '0') ++ ".0"
    else
      String.mk (dl.take (ki + 1)) ++ "." ++ String.mk (dl.drop (ki + 1))
  else
    "0." ++ String.mk (List.replicate ((-k).toNat - 1) '0') ++ ds

/-- Python str() of a binary64 value: inf with its sign for the
    infinities, the signed zeros, and otherwise the sign followed by
    the shortest round-tripping decimal, formatted as Python does. -/
def pyFloatStr (x : B64) : String :=
  if x.exp = 1024 then (if x.neg then "-inf" else "inf")
  else if x.mag = 0 then (if x.neg then "-0.0" else "0.0")
  else
    let t := shortestFrom { neg := false, mag := x.mag, exp := x.exp } 1 17
    (if x.neg then "-" else "") ++ formatDigits t.1 t.2.1 t.2.2

/-! ## Decimal literal parsing (Python float() on the accepted forms) -/

/-- Value of a list of decimal digit characters. -/
def natOfDigits (l : List Char) : ℕ :=
  l.foldl (fun acc c => 10 * acc + (c.toNat - 48)) 0

/-- Exact fractional value of a decimal floating literal in the forms
    accepted by Python float() that argparse can receive here:
    optional sign, digits with an optional fractional part, optional
    decimal exponent. The inf and nan spellings, underscores in
    literals and surrounding whitespace are out of scope for the
    wrapper's sample option (an overflowing decimal literal such as
    1e999 is in scope and rounds to the infinity marker). -/
def parseDecimalFrac (s : String) : Option Frac :=
  let l := s.toList
  let sl : Bool × List Char :=
    match l with
    | '-' :: r => (true, r)
    | '+' :: r => (false, r)
    | _ => (false, l)
  let ip := (sl.2.span (fun c => c.isDigit)).1
  let l2 := (sl.2.span (fun c => c.isDigit)).2
  let fp : List Char × List Char :=
    match l2 with
    | '.' :: r => r.span (fun c => c.isDigit)
    | _ => ([], l2)
  if ip.isEmpty ∧ fp.1.isEmpty then none
  else
    let m := natOfDigits (ip ++ fp.1)
    let d0 := 10 ^ fp.1.length
    match fp.2 with
    | [] => some { neg := sl.1, num := m, den := d0 }
    | 'e' :: r | 'E' :: r =>
      let es : Bool × List Char :=
        match r with
        | '-' :: r2 => (true, r2)
        | '+' :: r2 => (false, r2)
        | _ => (false, r)
      let ed := es.2.span (fun c => c.isDigit)
      if ed.1.isEmpty ∨ ¬ ed.2.isEmpty then none
      else
        let ex := natOfDigits ed.1
        some (if es.1 then { neg := sl.1, num := m, den := d0 * 10 ^ ex }
              else { neg := sl.1, num := m * 10 ^ ex, den := d0 })
    | _ => none

/-! ## The RunConfiguration record and argument parsing -/

/-- Parsed options of one wrapper invocation (the argparse Namespace of
    parse_arguments). The sample field holds the binary64 value stored
    by argparse after float conversion, as an exact rational. -/
structure Args where
  all : Bool
  dask : Bool
  spark : Bool
  sklearn : Bool
  sql : Bool
  visualize : Bool
  sample : B64
  data_path : String
  output_path : String
deriving Repr, DecidableEq

/-- Defaults declared by parse_arguments: every flag off, sample 0.1,
    data path data/US_Accidents.csv, output path output. -/
def defaultArgs : Args :=
  { all := false, dask := false, spark := false, sklearn := false
    sql := false, visualize := false
    sample := roundToB64 { neg := false, num := 1, den := 10 }
    data_path := "data/US_Accidents.csv"
    output_path := "output" }

/-- Token-level state of the option scan: either at the top level, or
    waiting for the value of one of the three value-bearing options. -/
inductive Expect
  | top
  | vSample
  | vData
  | vOut
deriving Repr, DecidableEq

/-- Check whether the tail of a literal is digits, as in the argparse
    negative-number pattern. -/
def allDigits (l : List Char) : Bool := l.all (fun c => c.isDigit)

/-- Recognise argparse's negative-number shapes (minus sign followed by
    digits, or by digits, a point and more digits): such tokens may be
    consumed as option values even though they begin with a dash,
    because no option string of this program looks like a negative
    number. -/
def negNumLike (s : String) : Bool :=
  match s.toList with
  | '-' :: rest =>
    let p := rest.span (fun c => c.isDigit)
    match p.2 with
    | [] => !p.1.isEmpty
    | '.' :: b => !b.isEmpty && allDigits b
    | _ => false
  | _ => false

/-- argparse accepts a token as an option value when it does not begin
    with a dash, or when it looks like a negative number. -/
def valueToken (s : String) : Bool :=
  match s.toList with
  | '-' :: _ => negNumLike s
  | _ => true

/-- One token step of the argparse scan over the options declared by
    parse_arguments: the six store-true flags, and the three
    value-bearing options sample (float), data-path and output-path.
    A token that matches no declared option, a missing or
    option-shaped value, and a value that fails float conversion each
    abort parsing (argparse exits with an error). Combined-form
    equals-sign values and unambiguous prefix abbreviation are outside
    the modelled token forms. -/
def pstep (st : Args × Expect) (t : String) : Option (Args × Expect) :=
  match st.2 with
  | Expect.top =>
    if t = "--all" then some ({ st.1 with all := true }, Expect.top)
    else if t = "--dask" then some ({ st.1 with dask := true }, Expect.top)
    else if t = "--spark" then some ({ st.1 with spark := true }, Expect.top)
    else if t = "--sklearn" then some ({ st.1 with sklearn := true }, Expect.top)
    else if t = "--sql" then some ({ st.1 with sql := true }, Expect.top)
    else if t = "--visualize" then some ({ st.1 with visualize := true }, Expect.top)
    else if t = "--sample" then some (st.1, Expect.vSample)
    else if t = "--data-path" then some (st.1, Expect.vData)
    else if t = "--output-path" then some (st.1, Expect.vOut)
    else none
  | Expect.vSample =>
    if valueToken t then
      match parseDecimalFrac t with
      | some fr => some ({ st.1 with sample := roundToB64 fr }, Expect.top)
      | none => none
    else none
  | Expect.vData =>
    if valueToken t then some ({ st.1 with data_path := t }, Expect.top) else none
  | Expect.vOut =>
    if valueToken t then some ({ st.1 with output_path := t }, Expect.top) else none

/-- parse_arguments of run.py: scan the argument vector over the
    declared options, starting from the defaults; fails (argparse
    error) when a token is rejected or a value is missing at the end. -/
def parse_arguments (argv : List String) : Option Args :=
  match argv.foldlM pstep (defaultArgs, Expect.top) with
  | some (a, Expect.top) => some a
  | _ => none

/-- The none-selected-means-all policy applied by main just after
    parsing: when no component flag is set, force the all flag on. -/
def apply_all_policy (a : Args) : Args :=
  if a.dask || a.spark || a.sklearn || a.sql || a.visualize then a
  else { a with all := true }

/-! ## Filesystem, console/process events, and the wrapper pipeline -/

/-- Visible filesystem state: the set of existing directories and the
    existing regular files with their sizes in bytes. -/
structure FS where
  dirs : List String
  files : List (String × ℕ)
deriving Repr, DecidableEq

/-- os.path.exists: true when the path is an existing directory or an
    existing file. -/
def FS.pathExists (fs : FS) (p : String) : Bool :=
  fs.dirs.contains p || (fs.files.map Prod.fst).contains p

/-- os.makedirs with exist_ok: create the directory when the path does
    not exist yet, otherwise leave the filesystem unchanged. -/
def FS.makedirs (fs : FS) (p : String) : FS :=
  if fs.pathExists p then fs else { fs with dirs := p :: fs.dirs }

/-- os.path.getsize of an existing file, in bytes. -/
def FS.getsize (fs : FS) (p : String) : ℕ :=
  match fs.files.find? (fun e => e.1 = p) with
  | some e => e.2
  | none => 0

/-- os.path.dirname on POSIX paths: everything up to the last slash,
    with the trailing slash run stripped unless the head is only
    slashes. -/
def dirname (p : String) : String :=
  let l := p.toList
  let head := (l.reverse.dropWhile (fun c => c ≠ '/')).reverse
  if head ≠ [] ∧ head.any (fun c => c ≠ '/') then
    String.mk ((head.reverse.dropWhile (fun c => c = '/')).reverse)
  else String.mk head

/-- Observable events of one wrapper run, in order: each console print
    of run.py (with the data it interpolates) and the process-spawn
    effect of the subprocess call. -/
inductive Event
  | banner
  | startedAt
  | errNoRequirements
  | creatingDataDir
  | creatingOutputDir
  | errNoSource
  | foundDataFile (path : String) (sizeBytes : ℕ)
  | errDataFileNotFound (path : String) (parentDir : String)
  | executing (cmd : List String)
  | spawn (cmd : List String)
  | errPipelineFailed (code : ℕ)
  | successMsg
  | failureMsg
  | completedAt
deriving Repr, DecidableEq

/-- World threaded through the wrapper: filesystem plus the ordered
    event log. -/
structure World where
  fs : FS
  events : List Event
deriving Repr, DecidableEq

/-- Append one event to the log. -/
def World.emit (w : World) (e : Event) : World :=
  { w with events := w.events ++ [e] }

/-- Apply os.makedirs to the world's filesystem. -/
def World.mkdirs (w : World) (p : String) : World :=
  { w with fs := w.fs.makedirs p }

/-- Behaviour of the delegated child process at the single spawn site:
    it either terminates with some exit status, or the launch itself
    fails (interpreter or script not executable), which in Python
    surfaces as an OSError from subprocess.run. -/
inductive ChildOutcome
  | exits (code : ℕ)
  | launchFailure
deriving Repr, DecidableEq

/-- Python exceptions that the subprocess call can raise here:
    CalledProcessError carrying the nonzero exit status (because the
    call passes check equal true), or an OSError from a failed launch. -/
inductive PyExc
  | calledProcessError (code : ℕ)
  | osError
deriving Repr, DecidableEq

/-- Decidable equality of delegation results, for concrete runs. -/
instance : DecidableEq (Except PyExc ℕ) := fun a b =>
  match a, b with
  | Except.ok x, Except.ok y =>
    if h : x = y then isTrue (by rw [h]) else isFalse (by intro hc; cases hc; exact h rfl)
  | Except.ok _, Except.error _ => isFalse (by intro hc; cases hc)
  | Except.error _, Except.ok _ => isFalse (by intro hc; cases hc)
  | Except.error x, Except.error y =>
    if h : x = y then isTrue (by rw [h]) else isFalse (by intro hc; cases hc; exact h rfl)

/-- Decidable equality of pipeline-stage results, for concrete runs. -/
instance : DecidableEq (Except PyExc Bool) := fun a b =>
  match a, b with
  | Except.ok x, Except.ok y =>
    if h : x = y then isTrue (by rw [h]) else isFalse (by intro hc; cases hc; exact h rfl)
  | Except.ok _, Except.error _ => isFalse (by intro hc; cases hc)
  | Except.error _, Except.ok _ => isFalse (by intro hc; cases hc)
  | Except.error x, Except.error y =>
    if h : x = y then isTrue (by rw [h]) else isFalse (by intro hc; cases hc; exact h rfl)

/-- subprocess.run with check: returns normally on a zero exit status,
    raises CalledProcessError on a nonzero one, and raises OSError when
    the child could not be launched at all. -/
def subprocessRun (oc : ChildOutcome) : Except PyExc Unit :=
  match oc with
  | ChildOutcome.exits n => if n = 0 then Except.ok () else Except.error (PyExc.calledProcessError n)
  | ChildOutcome.launchFailure => Except.error PyExc.osError

/-- check_dependencies of run.py: fail when requirements.txt is
    missing; otherwise create the data directory when absent, create
    the output directory with its two subdirectories when the output
    directory is absent, and finally fail when src/main.py is missing. -/
def check_dependencies (w : World) : Bool × World :=
  if !(w.fs.pathExists "requirements.txt") then
    (false, w.emit Event.errNoRequirements)
  else
    let w1 := if !(w.fs.pathExists "data") then
        (w.emit Event.creatingDataDir).mkdirs "data"
      else w
    let w2 := if !(w1.fs.pathExists "output") then
        ((((w1.emit Event.creatingOutputDir).mkdirs "output").mkdirs
          "output/visualizations").mkdirs "output/sql_results")
      else w1
    if !(w2.fs.pathExists "src/main.py") then
      (false, w2.emit Event.errNoSource)
    else (true, w2)

/-- check_data_file of run.py: report the file and its size when the
    configured data path exists, otherwise print the remediation
    message naming the parent directory of the path. -/
def check_data_file (p : String) (w : World) : Bool × World :=
  if w.fs.pathExists p then
    (true, w.emit (Event.foundDataFile p (w.fs.getsize p)))
  else
    (false, w.emit (Event.errDataFileNotFound p (dirname p)))

/-- Command line built by run_pipeline: interpreter and script, one
    switch per active flag in source order (all first), then the three
    value-bearing switches with their string-formatted values. -/
def build_cmd (pyExe : String) (a : Args) : List String :=
  let cmd := [pyExe, "src/main.py"]
  let cmd := if a.all then cmd ++ ["--all"] else cmd
  let cmd := if a.dask then cmd ++ ["--dask"] else cmd
  let cmd := if a.spark then cmd ++ ["--spark"] else cmd
  let cmd := if a.sklearn then cmd ++ ["--sklearn"] else cmd
  let cmd := if a.sql then cmd ++ ["--sql"] else cmd
  let cmd := if a.visualize then cmd ++ ["--visualize"] else cmd
  let cmd := cmd ++ ["--sample", pyFloatStr a.sample]
  let cmd := cmd ++ ["--data-path", a.data_path]
  cmd ++ ["--output-path", a.output_path]

/-- run_pipeline of run.py: echo the command, spawn the child and wait;
    a nonzero exit status raises CalledProcessError, which is caught
    and turned into false after printing the exit code; any other
    exception from the spawn is not caught by the except clause and
    propagates. -/
def run_pipeline (pyExe : String) (a : Args) (oc : ChildOutcome) (w : World) :
    Except PyExc Bool × World :=
  let cmd := build_cmd pyExe a
  let w1 := (w.emit (Event.executing cmd)).emit (Event.spawn cmd)
  match subprocessRun oc with
  | Except.ok _ => (Except.ok true, w1)
  | Except.error (PyExc.calledProcessError n) =>
    (Except.ok false, w1.emit (Event.errPipelineFailed n))
  | Except.error PyExc.osError => (Except.error PyExc.osError, w1)

/-- main of run.py: banner and start timestamp, argument parsing (an
    argparse error exits with status two), the none-selected-means-all
    policy, the environment gate, the data-file gate, delegation, and
    the final report; each failing gate exits with status one, and the
    completion timestamp is printed only on full success. The result is
    the wrapper's own exit status, or the uncaught exception when the
    delegation stage raises one. -/
def main (pyExe : String) (argv : List String) (oc : ChildOutcome) (w : World) :
    Except PyExc ℕ × World :=
  let w0 := (w.emit Event.banner).emit Event.startedAt
  match parse_arguments argv with
  | none => (Except.ok 2, w0)
  | some a0 =>
    let args := apply_all_policy a0
    let r1 := check_dependencies w0
    if !r1.1 then (Except.ok 1, r1.2)
    else
      let r2 := check_data_file args.data_path r1.2
      if !r2.1 then (Except.ok 1, r2.2)
      else
        match run_pipeline pyExe args oc r2.2 with
        | (Except.error e, w3) => (Except.error e, w3)
        | (Except.ok success, w3) =>
          if success then
            (Except.ok 0, (w3.emit Event.successMsg).emit Event.completedAt)
          else
            (Except.ok 1, w3.emit Event.failureMsg)

/-! ## Spec-side vocabulary used to state the claims -/

/-- The six boolean switches the wrapper can forward. -/
def boolSwitchTokens : List String :=
  ["--all", "--dask", "--spark", "--sklearn", "--sql", "--visualize"]

/-- The three value-bearing switches the wrapper always forwards. -/
def valueSwitchTokens : List String := ["--sample", "--data-path", "--output-path"]

/-- All switch tokens of the delegated command line. -/
def switchTokens : List String := boolSwitchTokens ++ valueSwitchTokens

/-- Ordered list of the active flag switches exactly as the source
    appends them: all first, then dask, spark, sklearn, sql,
    visualize. -/
def flagSwitchesSourceOrder (a : Args) : List String :=
  (if a.all then ["--all"] else [])
    ++ (if a.dask then ["--dask"] else [])
    ++ (if a.spark then ["--spark"] else [])
    ++ (if a.sklearn then ["--sklearn"] else [])
    ++ (if a.sql then ["--sql"] else [])
    ++ (if a.visualize then ["--visualize"] else [])

/-- Ordered list of the active flag switches as the claim words it:
    dask, spark, sklearn, sql, visualize, and all last. -/
def flagSwitchesClaimOrder (a : Args) : List String :=
  (if a.dask then ["--dask"] else [])
    ++ (if a.spark then ["--spark"] else [])
    ++ (if a.sklearn then ["--sklearn"] else [])
    ++ (if a.sql then ["--sql"] else [])
    ++ (if a.visualize then ["--visualize"] else [])
    ++ (if a.all then ["--all"] else [])

/-- Events of the data-file validation stage. -/
def isDataStage : Event → Bool
  | Event.foundDataFile _ _ => true
  | Event.errDataFileNotFound _ _ => true
  | _ => false

/-- Events of the delegation stage. -/
def isDelegateStage : Event → Bool
  | Event.executing _ => true
  | Event.spawn _ => true
  | Event.errPipelineFailed _ => true
  | _ => false

/-- Events of the final report stage. -/
def isReportStage : Event → Bool
  | Event.successMsg => true
  | Event.failureMsg => true
  | Event.completedAt => true
  | _ => false

/-- Events of the environment validation stage. -/
def isEnvStage : Event → Bool
  | Event.errNoRequirements => true
  | Event.creatingDataDir => true
  | Event.creatingOutputDir => true
  | Event.errNoSource => true
  | _ => false

/-! ## Concrete example worlds and configurations -/

/-- World with both directories and the script, but no manifest. -/
def wNoManifest : World :=
  { fs := { dirs := ["data", "output"], files := [("src/main.py", 7)] }, events := [] }

/-- World where output exists without its subfolders, and the manifest
    and the script are present. -/
def wOutputOnly : World :=
  { fs := { dirs := ["output"],
            files := [("requirements.txt", 1), ("src/main.py", 1)] },
    events := [] }

/-- World with the manifest and the script only, no directories. -/
def wBare : World :=
  { fs := { dirs := [], files := [("requirements.txt", 1), ("src/main.py", 1)] },
    events := [] }

/-- Completely empty world. -/
def wEmpty : World := { fs := { dirs := [], files := [] }, events := [] }

/-- Fully provisioned world: manifest, script, the four directories and
    a concrete data file. -/
def wFull : World :=
  { fs := { dirs := ["data", "output", "output/visualizations", "output/sql_results"],
            files := [("requirements.txt", 10), ("src/main.py", 100),
                      ("data/x.csv", 5)] },
    events := [] }

/-- Configuration with the all and dask flags both set. -/
def argsAllDask : Args :=
  { all := true, dask := true, spark := false, sklearn := false
    sql := false, visualize := false
    sample := roundToB64 { neg := false, num := 1, den := 10 }, data_path := "d", output_path := "o" }

/-- Configuration with every flag set. -/
def argsEvery : Args :=
  { all := true, dask := true, spark := true, sklearn := true
    sql := true, visualize := true
    sample := roundToB64 { neg := false, num := 1, den := 4 }, data_path := "data/x.csv", output_path := "out" }

/-- Configuration with only the sample changed from the defaults. -/
def argsSample25 : Args := { defaultArgs with sample := roundToB64 { neg := false, num := 25, den := 100 } }

/-- Configuration parsed from the end-to-end scenario argument vector
    with the sql flag, sample 0.25, data path data/x.csv and output
    path out2. -/
def argsE2E : Args :=
  { all := false, dask := false, spark := false, sklearn := false
    sql := true, visualize := false
    sample := roundToB64 { neg := false, num := 25, den := 100 }
    data_path := "data/x.csv", output_path := "out2" }

/-- The end-to-end scenario argument vector. -/
def argvE2E : List String :=
  ["--sql", "--sample", "0.25", "--data-path", "data/x.csv",
   "--output-path", "out2"]

/-! ## Helper lemmas about the world and the environment check -/

@[simp]
theorem World.emit_fs (w : World) (e : Event) : (w.emit e).fs = w.fs := rfl

@[simp]
theorem World.emit_events (w : World) (e : Event) :
    (w.emit e).events = w.events ++ [e] := rfl

@[simp]
theorem World.mkdirs_events (w : World) (p : String) :
    (w.mkdirs p).events = w.events := rfl

@[simp]
theorem World.mkdirs_fs (w : World) (p : String) :
    (w.mkdirs p).fs = w.fs.makedirs p := rfl

@[simp]
theorem FS.makedirs_files (fs : FS) (q : String) : (fs.makedirs q).files = fs.files := by
  unfold FS.makedirs
  split <;> rfl

theorem FS.pathExists_makedirs (fs : FS) (q p : String) :
    (fs.makedirs q).pathExists p = (fs.pathExists p || p == q) := by
  unfold FS.makedirs
  split
  · rename_i h
    cases hpq : (p == q) with
    | false => simp
    | true =>
      have : p = q := by simpa using hpq
      subst this
      simp [h]
  · by_cases hpq : p = q
    · subst hpq
      simp [FS.pathExists, List.contains_cons]
    · simp [FS.pathExists, List.contains_cons, hpq]

theorem FS.pathExists_makedirs_ne (fs : FS) (q p : String) (h : p ≠ q) :
    (fs.makedirs q).pathExists p = fs.pathExists p := by
  rw [FS.pathExists_makedirs]
  have : (p == q) = false := by simpa using h
  simp [this]

theorem FS.pathExists_makedirs_true (fs : FS) (q p : String)
    (h : fs.pathExists p = true) : (fs.makedirs q).pathExists p = true := by
  rw [FS.pathExists_makedirs, h]
  rfl

/-- The environment check never touches regular files. -/
theorem check_dependencies_files (w : World) :
    (check_dependencies w).2.fs.files = w.fs.files := by
  unfold check_dependencies
  dsimp only
  repeat' split
  all_goals simp

/-- The environment check succeeds exactly when the manifest and the
    delegated script both exist; directory creation cannot affect
    either check. -/
theorem check_dependencies_result (w : World) :
    (check_dependencies w).1
      = (w.fs.pathExists "requirements.txt" && w.fs.pathExists "src/main.py") := by
  unfold check_dependencies
  dsimp only
  repeat' split
  all_goals simp_all [FS.pathExists_makedirs]

/-- Existing paths survive the environment check. -/
theorem check_dependencies_mono (w : World) (p : String)
    (h : w.fs.pathExists p = true) :
    (check_dependencies w).2.fs.pathExists p = true := by
  unfold check_dependencies
  dsimp only
  repeat' split
  all_goals simp_all [FS.pathExists_makedirs]

/-- Every event present after the environment check was already there
    before, or is an environment-stage event. -/
theorem check_dependencies_events_mem (w : World) (e : Event)
    (h : e ∈ (check_dependencies w).2.events) :
    e ∈ w.events ∨ isEnvStage e = true := by
  unfold check_dependencies at h
  dsimp only at h
  repeat' split at h
  all_goals simp_all [isEnvStage]
  all_goals casesm* _ ∨ _
  all_goals simp_all [isEnvStage]

/-- With the manifest, the script and both directories already present,
    the environment check is a complete no-op that returns true. -/
theorem check_dependencies_noop (w : World)
    (hreq : w.fs.pathExists "requirements.txt" = true)
    (hsrc : w.fs.pathExists "src/main.py" = true)
    (hdata : w.fs.pathExists "data" = true)
    (hout : w.fs.pathExists "output" = true) :
    check_dependencies w = (true, w) := by
  unfold check_dependencies
  simp [hreq, hsrc, hdata, hout]

/-! ## Helper lemmas: options, command line, data check, delegation -/

/-- The none-selected policy never changes anything except the all
    flag. -/
theorem apply_all_policy_fields (a : Args) :
    (apply_all_policy a).dask = a.dask ∧ (apply_all_policy a).spark = a.spark
      ∧ (apply_all_policy a).sklearn = a.sklearn ∧ (apply_all_policy a).sql = a.sql
      ∧ (apply_all_policy a).visualize = a.visualize
      ∧ (apply_all_policy a).sample = a.sample
      ∧ (apply_all_policy a).data_path = a.data_path
      ∧ (apply_all_policy a).output_path = a.output_path := by
  unfold apply_all_policy
  split <;> simp

/-- Normal form of the delegated command line: interpreter, script,
    the active flag switches in source order, then the three
    value-bearing switches. -/
theorem build_cmd_eq (pyExe : String) (a : Args) :
    build_cmd pyExe a
      = [pyExe, "src/main.py"] ++ flagSwitchesSourceOrder a
        ++ ["--sample", pyFloatStr a.sample, "--data-path", a.data_path,
            "--output-path", a.output_path] := by
  rcases a with ⟨al, da, sp, sk, sq, vi, sm, dp, op⟩
  cases al <;> cases da <;> cases sp <;> cases sk <;> cases sq <;> cases vi <;> rfl

/-- One scan step cannot change a component flag unless the token is
    that flag's switch. -/
theorem pstep_components (st st' : Args × Expect) (t : String)
    (h : pstep st t = some st')
    (hd : t ≠ "--dask") (hs : t ≠ "--spark") (hk : t ≠ "--sklearn")
    (hq : t ≠ "--sql") (hv : t ≠ "--visualize") :
    st'.1.dask = st.1.dask ∧ st'.1.spark = st.1.spark
      ∧ st'.1.sklearn = st.1.sklearn ∧ st'.1.sql = st.1.sql
      ∧ st'.1.visualize = st.1.visualize := by
  rcases st with ⟨a, x⟩
  unfold pstep at h
  cases x <;> dsimp only at h <;> repeat' split at h
  all_goals first
    | (injection h with h; subst h; simp)
    | simp_all

/-- The whole scan cannot change a component flag when the
    corresponding switch does not occur in the argument vector. -/
theorem foldl_components (argv : List String) :
    ∀ st st', List.foldlM pstep st argv = some st' →
      "--dask" ∉ argv → "--spark" ∉ argv → "--sklearn" ∉ argv →
      "--sql" ∉ argv → "--visualize" ∉ argv →
      st'.1.dask = st.1.dask ∧ st'.1.spark = st.1.spark
        ∧ st'.1.sklearn = st.1.sklearn ∧ st'.1.sql = st.1.sql
        ∧ st'.1.visualize = st.1.visualize := by
  induction argv with
  | nil =>
    intro st st' h _ _ _ _ _
    simp only [List.foldlM_nil, Option.pure_def, Option.some.injEq] at h
    subst h
    exact ⟨rfl, rfl, rfl, rfl, rfl⟩
  | cons t ts ih =>
    intro st st' h h1 h2 h3 h4 h5
    simp only [List.mem_cons, not_or] at h1 h2 h3 h4 h5
    rw [List.foldlM_cons] at h
    cases hstep : pstep st t with
    | none => rw [hstep] at h; simp at h
    | some st1 =>
      rw [hstep, Option.bind_eq_bind] at h
      simp only [Option.some_bind] at h
      have hone := pstep_components st st1 t hstep
        (fun he => h1.1 he.symm) (fun he => h2.1 he.symm) (fun he => h3.1 he.symm)
        (fun he => h4.1 he.symm) (fun he => h5.1 he.symm)
      have hrest := ih st1 st' h h1.2 h2.2 h3.2 h4.2 h5.2
      exact ⟨hrest.1.trans hone.1, hrest.2.1.trans hone.2.1,
        hrest.2.2.1.trans hone.2.2.1, hrest.2.2.2.1.trans hone.2.2.2.1,
        hrest.2.2.2.2.trans hone.2.2.2.2⟩

/-- When the data file exists, the data check reports it with its size
    and succeeds. -/
theorem check_data_file_exists (p : String) (w : World)
    (h : w.fs.pathExists p = true) :
    check_data_file p w = (true, w.emit (Event.foundDataFile p (w.fs.getsize p))) := by
  unfold check_data_file
  simp [h]

/-- When the data file is missing, the data check prints the
    remediation message naming the parent directory and fails. -/
theorem check_data_file_missing (p : String) (w : World)
    (h : w.fs.pathExists p = false) :
    check_data_file p w = (false, w.emit (Event.errDataFileNotFound p (dirname p))) := by
  unfold check_data_file
  simp [h]

/-- The data check leaves the filesystem untouched. -/
theorem check_data_file_fs (p : String) (w : World) :
    (check_data_file p w).2.fs = w.fs := by
  unfold check_data_file
  split <;> rfl

/-- Complete behaviour of the delegation stage on a terminating child:
    success is reported exactly on a zero exit status, the nonzero
    status is echoed in the failure diagnostic, and no exception
    escapes. -/
theorem run_pipeline_exits (pyExe : String) (a : Args) (n : ℕ) (w : World) :
    run_pipeline pyExe a (ChildOutcome.exits n) w
      = (Except.ok (n == 0),
         if n = 0 then
           (w.emit (Event.executing (build_cmd pyExe a))).emit
             (Event.spawn (build_cmd pyExe a))
         else
           (((w.emit (Event.executing (build_cmd pyExe a))).emit
             (Event.spawn (build_cmd pyExe a))).emit (Event.errPipelineFailed n))) := by
  unfold run_pipeline subprocessRun
  by_cases h : n = 0 <;> simp [h]

/-- A path that exists after the environment check either existed
    before or is one of the four directories the check can create. -/
theorem check_dependencies_pathExists_new (w : World) (p : String)
    (h : (check_dependencies w).2.fs.pathExists p = true) :
    w.fs.pathExists p = true
      ∨ p ∈ ["data", "output", "output/visualizations", "output/sql_results"] := by
  unfold check_dependencies at h
  dsimp only at h
  repeat' split at h
  all_goals simp_all [FS.pathExists_makedirs]
  all_goals tauto

/-- Filtering the flag-switch sublist keeps it unchanged. -/
theorem filter_flagSwitches (a : Args) :
    (flagSwitchesSourceOrder a).filter (fun s => boolSwitchTokens.contains s)
      = flagSwitchesSourceOrder a := by
  rcases a with ⟨al, da, sp, sk, sq, vi, sm, dp, op⟩
  cases al <;> cases da <;> cases sp <;> cases sk <;> cases sq <;> cases vi <;> rfl

/-- Occurrences of each boolean switch in the flag sublist: exactly one
    when the flag is active, none otherwise. -/
theorem count_flagSwitches (a : Args) :
    ((flagSwitchesSourceOrder a).count "--all" = if a.all then 1 else 0)
      ∧ ((flagSwitchesSourceOrder a).count "--dask" = if a.dask then 1 else 0)
      ∧ ((flagSwitchesSourceOrder a).count "--spark" = if a.spark then 1 else 0)
      ∧ ((flagSwitchesSourceOrder a).count "--sklearn" = if a.sklearn then 1 else 0)
      ∧ ((flagSwitchesSourceOrder a).count "--sql" = if a.sql then 1 else 0)
      ∧ ((flagSwitchesSourceOrder a).count "--visualize" = if a.visualize then 1 else 0)
      ∧ (flagSwitchesSourceOrder a).count "--sample" = 0
      ∧ (flagSwitchesSourceOrder a).count "--data-path" = 0
      ∧ (flagSwitchesSourceOrder a).count "--output-path" = 0 := by
  rcases a with ⟨al, da, sp, sk, sq, vi, sm, dp, op⟩
  cases al <;> cases da <;> cases sp <;> cases sk <;> cases sq <;> cases vi <;>
    exact ⟨rfl, rfl, rfl, rfl, rfl, rfl, rfl, rfl, rfl⟩

/-- Every element of the flag sublist is one of the six boolean
    switches. -/
theorem mem_flagSwitches (a : Args) (s : String)
    (h : s ∈ flagSwitchesSourceOrder a) :
    s = "--all" ∨ s = "--dask" ∨ s = "--spark" ∨ s = "--sklearn" ∨ s = "--sql"
      ∨ s = "--visualize" := by
  rcases a with ⟨al, da, sp, sk, sq, vi, sm, dp, op⟩
  cases al <;> cases da <;> cases sp <;> cases sk <;> cases sq <;> cases vi <;>
    simp_all [flagSwitchesSourceOrder] <;> tauto

/-- Restricted to switch positions, the command line is exactly the
    active flag switches in source order (all first). -/
theorem build_cmd_filter_switches (pyExe : String) (a : Args)
    (hp : pyExe ∉ switchTokens) (hd : a.data_path ∉ switchTokens)
    (ho : a.output_path ∉ switchTokens)
    (hs : pyFloatStr a.sample ∉ switchTokens) :
    (build_cmd pyExe a).filter (fun s => boolSwitchTokens.contains s)
      = flagSwitchesSourceOrder a := by
  simp only [switchTokens, boolSwitchTokens, valueSwitchTokens, List.mem_append,
    List.mem_cons, List.not_mem_nil, or_false, not_or] at hp hd ho hs
  rw [build_cmd_eq]
  simp [List.filter_append, filter_flagSwitches, List.filter_cons, boolSwitchTokens,
    hp, hd, ho, hs]
  intro s hmem
  exact mem_flagSwitches a s hmem

/-- Environment-stage events belong to no later stage. -/
theorem envStage_not_later (e : Event) (h : isEnvStage e = true) :
    isDataStage e = false ∧ isDelegateStage e = false ∧ isReportStage e = false := by
  cases e <;> simp_all [isEnvStage, isDataStage, isDelegateStage, isReportStage]

/-- Whenever the manifest, the script and the configured data file all
    exist, the wrapper finishes with exit status zero on a zero child
    exit status and one on a nonzero one. -/
theorem main_exits_code (pyExe : String) (argv : List String) (a : Args) (n : ℕ)
    (w : World)
    (hparse : parse_arguments argv = some a)
    (hreq : w.fs.pathExists "requirements.txt" = true)
    (hsrc : w.fs.pathExists "src/main.py" = true)
    (hdata : w.fs.pathExists a.data_path = true) :
    (main pyExe argv (ChildOutcome.exits n) w).1
      = Except.ok (if n = 0 then 0 else 1) := by
  have h1 : (check_dependencies ((w.emit Event.banner).emit Event.startedAt)).1
      = true := by
    rw [check_dependencies_result]
    simp [hreq, hsrc]
  have hdp : (apply_all_policy a).data_path = a.data_path :=
    (apply_all_policy_fields a).2.2.2.2.2.2.1
  have h2 : (check_dependencies
        ((w.emit Event.banner).emit Event.startedAt)).2.fs.pathExists
      (apply_all_policy a).data_path = true := by
    rw [hdp]
    exact check_dependencies_mono _ _ hdata
  unfold main
  simp only [hparse]
  rw [h1]
  simp only [Bool.not_true]
  rw [check_data_file_exists _ _ h2]
  simp only [Bool.not_true]
  rw [run_pipeline_exits]
  by_cases hn : n = 0 <;> simp [hn]

/-- Nominal run: with every prerequisite present, main produces
    exactly the banner, data-report, delegation and report events in
    stage order, leaves the filesystem unchanged, and exits with zero
    or one according to the child exit status. -/
theorem main_nominal (pyExe : String) (argv : List String) (a : Args) (n : ℕ)
    (w : World)
    (hev : w.events = [])
    (hparse : parse_arguments argv = some a)
    (hreq : w.fs.pathExists "requirements.txt" = true)
    (hsrc : w.fs.pathExists "src/main.py" = true)
    (hdat : w.fs.pathExists "data" = true)
    (hout : w.fs.pathExists "output" = true)
    (hdata : w.fs.pathExists a.data_path = true) :
    main pyExe argv (ChildOutcome.exits n) w
      = (Except.ok (if n = 0 then 0 else 1),
         { fs := w.fs,
           events := [Event.banner, Event.startedAt,
               Event.foundDataFile a.data_path (w.fs.getsize a.data_path),
               Event.executing (build_cmd pyExe (apply_all_policy a)),
               Event.spawn (build_cmd pyExe (apply_all_policy a))]
             ++ (if n = 0 then [Event.successMsg, Event.completedAt]
                 else [Event.errPipelineFailed n, Event.failureMsg]) }) := by
  have hdp : (apply_all_policy a).data_path = a.data_path :=
    (apply_all_policy_fields a).2.2.2.2.2.2.1
  have hnoop : check_dependencies ((w.emit Event.banner).emit Event.startedAt)
      = (true, (w.emit Event.banner).emit Event.startedAt) :=
    check_dependencies_noop _ hreq hsrc hdat hout
  unfold main
  simp only [hparse]
  rw [hnoop]
  simp only [Bool.not_true]
  rw [check_data_file_exists _ _ (by rw [hdp]; exact hdata)]
  simp only [Bool.not_true]
  rw [run_pipeline_exits]
  by_cases hn : n = 0 <;>
    simp [hn, hdp, World.emit, hev, check_data_file]

/-! ## Claims -/

/-- C10: check_data_file never modifies the filesystem: on the success
    branch (reporting the size) and on the failure branch (emitting the
    remediation message) it only reads existence and size and appends a
    single diagnostic event, leaving every file and directory
    unchanged. -/
theorem claim_C10_data_check_frame (p : String) (w : World) :
    (check_data_file p w).2.fs = w.fs
      ∧ ∃ e, (check_data_file p w).2.events = w.events ++ [e] := by
  unfold check_data_file
  split
  · exact ⟨rfl, _, rfl⟩
  · exact ⟨rfl, _, rfl⟩

/-- C8: whenever requirements.txt is absent, check_dependencies
    returns false, emits only the manifest diagnostic and performs no
    directory creation: the filesystem is returned unchanged regardless
    of the prior state of the data and output directories. -/
theorem claim_C8_manifest_absent (w : World)
    (h : w.fs.pathExists "requirements.txt" = false) :
    check_dependencies w = (false, w.emit Event.errNoRequirements)
      ∧ (check_dependencies w).2.fs = w.fs := by
  unfold check_dependencies
  simp [h]

/-- C8 witness: a world with both directories present but no manifest
    is rejected with the filesystem untouched. -/
theorem claim_C8_manifest_absent_witness :
    wNoManifest.fs.pathExists "requirements.txt" = false
      ∧ (check_dependencies wNoManifest
            = (false, wNoManifest.emit Event.errNoRequirements)
        ∧ (check_dependencies wNoManifest).2.fs = wNoManifest.fs) :=
  ⟨by decide, claim_C8_manifest_absent _ (by decide)⟩

/-- C2 counterexample: with the manifest and script present and the
    output directory already existing without its subfolders, the
    environment check succeeds yet output/visualizations is still
    absent afterwards, refuting that each subfolder is created whenever
    it is absent. -/
theorem claim_C2_counterexample :
    (check_dependencies wOutputOnly).1 = true
      ∧ (check_dependencies wOutputOnly).2.fs.pathExists "output/visualizations"
          = false := by
  constructor
  · decide
  · decide

/-- C2 amended: after a successful check_dependencies, data and output
    both exist; the two output subfolders are created exactly when the
    output directory was absent beforehand, and are otherwise left in
    their prior state (possibly absent). -/
theorem claim_C2_dirs_after_success (w : World)
    (h : (check_dependencies w).1 = true) :
    (check_dependencies w).2.fs.pathExists "data" = true
      ∧ (check_dependencies w).2.fs.pathExists "output" = true
      ∧ (w.fs.pathExists "output" = false →
          (check_dependencies w).2.fs.pathExists "output/visualizations" = true
            ∧ (check_dependencies w).2.fs.pathExists "output/sql_results" = true)
      ∧ (w.fs.pathExists "output" = true →
          (check_dependencies w).2.fs.pathExists "output/visualizations"
              = w.fs.pathExists "output/visualizations"
            ∧ (check_dependencies w).2.fs.pathExists "output/sql_results"
              = w.fs.pathExists "output/sql_results") := by
  cases h1 : w.fs.pathExists "requirements.txt" <;>
    cases h2 : w.fs.pathExists "data" <;>
      cases h3 : w.fs.pathExists "output" <;>
        cases h4 : w.fs.pathExists "src/main.py" <;>
          simp_all [check_dependencies, FS.pathExists_makedirs]

/-- C2 amended witness: starting from a bare filesystem with only the
    manifest and the script, all four directories exist after the
    check. -/
theorem claim_C2_dirs_after_success_witness :
    (check_dependencies wBare).1 = true
      ∧ (check_dependencies wBare).2.fs.pathExists "data" = true := by
  refine ⟨by decide, ?_⟩
  exact (claim_C2_dirs_after_success wBare (by decide)).1

/-- C6 counterexample: a launch failure of the subprocess call raises
    an OSError that the except clause (which names only
    CalledProcessError) does not catch, so an exception does cross the
    Execute boundary. -/
theorem claim_C6_counterexample :
    (run_pipeline "python3" defaultArgs ChildOutcome.launchFailure wEmpty).1
      = Except.error PyExc.osError := rfl

/-- C6 amended: the only exception caught inside run_pipeline is
    CalledProcessError from a nonzero child exit status, which is
    translated into a false result (true on a zero status, and never an
    escaping exception for a terminating child); any other exception
    raised while launching the child, modelled as OSError, propagates
    out of run_pipeline. -/
theorem claim_C6_exception_boundary (pyExe : String) (a : Args) (w : World) :
    (∀ n : ℕ, (run_pipeline pyExe a (ChildOutcome.exits n) w).1
        = Except.ok (n == 0))
      ∧ (run_pipeline pyExe a ChildOutcome.launchFailure w).1
          = Except.error PyExc.osError := by
  constructor
  · intro n
    rw [run_pipeline_exits]
  · rfl

/-- C3: for every argument vector in which none of the component flag
    switches occurs, successful parsing followed by the
    none-selected-means-all policy of main yields a configuration with
    the all flag set. -/
theorem claim_C3_default_all (argv : List String) (a : Args)
    (hp : parse_arguments argv = some a)
    (h1 : "--dask" ∉ argv) (h2 : "--spark" ∉ argv) (h3 : "--sklearn" ∉ argv)
    (h4 : "--sql" ∉ argv) (h5 : "--visualize" ∉ argv) :
    (apply_all_policy a).all = true := by
  unfold parse_arguments at hp
  cases hfold : List.foldlM pstep (defaultArgs, Expect.top) argv with
  | none => rw [hfold] at hp; cases hp
  | some st =>
    rw [hfold] at hp
    rcases st with ⟨a2, x⟩
    cases x
    case vSample => cases hp
    case vData => cases hp
    case vOut => cases hp
    case top =>
      have ha : a2 = a := by simpa using hp
      subst ha
      have hc := foldl_components argv _ _ hfold h1 h2 h3 h4 h5
      unfold apply_all_policy
      have hd : a2.dask = false := hc.1
      have hs : a2.spark = false := hc.2.1
      have hk : a2.sklearn = false := hc.2.2.1
      have hq : a2.sql = false := hc.2.2.2.1
      have hv : a2.visualize = false := hc.2.2.2.2
      simp [hd, hs, hk, hq, hv]

/-- C3 witness: the empty argument vector parses to the defaults and
    the policy turns the all flag on. -/
theorem claim_C3_default_all_witness :
    parse_arguments [] = some defaultArgs
      ∧ ("--dask" : String) ∉ ([] : List String)
      ∧ (apply_all_policy defaultArgs).all = true :=
  ⟨rfl, by simp,
    claim_C3_default_all [] defaultArgs rfl (by simp) (by simp) (by simp)
      (by simp) (by simp)⟩

/-- C4 counterexample: with both the all and dask flags active,
    run_pipeline appends the all switch before the dask switch, so the
    switches are not in the claimed order dask, spark, sklearn, sql,
    visualize, all. -/
theorem claim_C4_counterexample :
    (build_cmd "python3" argsAllDask).filter (fun s => boolSwitchTokens.contains s)
        = ["--all", "--dask"]
      ∧ (["--all", "--dask"] : List String) ≠ ["--dask", "--all"] := by
  constructor
  · decide
  · decide

/-- C4 amended: run_pipeline appends the active boolean-flag switches
    to the child command line in the fixed source order all, dask,
    spark, sklearn, sql, visualize (all first, not last), whenever the
    interpreter path and the three forwarded values are not themselves
    switch tokens. -/
theorem claim_C4_flag_order (pyExe : String) (a : Args)
    (hp : pyExe ∉ switchTokens) (hd : a.data_path ∉ switchTokens)
    (ho : a.output_path ∉ switchTokens)
    (hs : pyFloatStr a.sample ∉ switchTokens) :
    (build_cmd pyExe a).filter (fun s => boolSwitchTokens.contains s)
      = flagSwitchesSourceOrder a :=
  build_cmd_filter_switches pyExe a hp hd ho hs

/-- C4 amended witness: with every flag active the switch positions of
    the command line list all six switches in source order. -/
theorem claim_C4_flag_order_witness :
    ("python3" : String) ∉ switchTokens
      ∧ (build_cmd "python3" argsEvery).filter (fun s => boolSwitchTokens.contains s)
          = flagSwitchesSourceOrder argsEvery :=
  ⟨by decide,
    claim_C4_flag_order "python3" argsEvery (by decide) (by decide) (by decide)
      (by decide)⟩

/-- C7: the command line built by run_pipeline contains exactly one
    switch per active boolean flag and none for an inactive flag, and
    always exactly one sample, one data-path and one output-path
    switch, each immediately followed by its string-formatted value
    (assuming the interpreter path and the three forwarded values are
    not themselves switch tokens). -/
theorem claim_C7_switch_multiplicities (pyExe : String) (a : Args)
    (hp : pyExe ∉ switchTokens) (hd : a.data_path ∉ switchTokens)
    (ho : a.output_path ∉ switchTokens)
    (hs : pyFloatStr a.sample ∉ switchTokens) :
    ((build_cmd pyExe a).count "--all" = if a.all then 1 else 0)
      ∧ ((build_cmd pyExe a).count "--dask" = if a.dask then 1 else 0)
      ∧ ((build_cmd pyExe a).count "--spark" = if a.spark then 1 else 0)
      ∧ ((build_cmd pyExe a).count "--sklearn" = if a.sklearn then 1 else 0)
      ∧ ((build_cmd pyExe a).count "--sql" = if a.sql then 1 else 0)
      ∧ ((build_cmd pyExe a).count "--visualize" = if a.visualize then 1 else 0)
      ∧ ((build_cmd pyExe a).count "--sample" = 1)
      ∧ ((build_cmd pyExe a).count "--data-path" = 1)
      ∧ ((build_cmd pyExe a).count "--output-path" = 1)
      ∧ (∃ l1 l2, build_cmd pyExe a
          = l1 ++ ["--sample", pyFloatStr a.sample] ++ l2)
      ∧ (∃ l3 l4, build_cmd pyExe a
          = l3 ++ ["--data-path", a.data_path] ++ l4)
      ∧ (∃ l5 l6, build_cmd pyExe a
          = l5 ++ ["--output-path", a.output_path] ++ l6) := by
  simp only [switchTokens, boolSwitchTokens, valueSwitchTokens, List.mem_append,
    List.mem_cons, List.not_mem_nil, or_false, not_or] at hp hd ho hs
  have hc := count_flagSwitches a
  refine ⟨?_, ?_, ?_, ?_, ?_, ?_, ?_, ?_, ?_,
    ⟨[pyExe, "src/main.py"] ++ flagSwitchesSourceOrder a,
      ["--data-path", a.data_path, "--output-path", a.output_path], ?_⟩,
    ⟨[pyExe, "src/main.py"] ++ flagSwitchesSourceOrder a
        ++ ["--sample", pyFloatStr a.sample],
      ["--output-path", a.output_path], ?_⟩,
    ⟨[pyExe, "src/main.py"] ++ flagSwitchesSourceOrder a
        ++ ["--sample", pyFloatStr a.sample, "--data-path", a.data_path],
      [], ?_⟩⟩
  all_goals rw [build_cmd_eq]
  all_goals simp [List.count_append, List.count_cons, hp, hd, ho, hs,
    hc.1, hc.2.1, hc.2.2.1, hc.2.2.2.1, hc.2.2.2.2.1, hc.2.2.2.2.2.1,
    hc.2.2.2.2.2.2.1, hc.2.2.2.2.2.2.2.1, hc.2.2.2.2.2.2.2.2]

/-- C7 witness: the multiplicity facts at a fully active concrete
    configuration. -/
theorem claim_C7_switch_multiplicities_witness :
    ("python3" : String) ∉ switchTokens
      ∧ ((build_cmd "python3" argsEvery).count "--all"
            = if argsEvery.all then 1 else 0)
      ∧ ((build_cmd "python3" argsEvery).count "--sample" = 1) := by
  have h := claim_C7_switch_multiplicities "python3" argsEvery (by decide)
    (by decide) (by decide) (by decide)
  exact ⟨by decide, h.1, h.2.2.2.2.2.2.1⟩

/-- C5 counterexample: the sample token 0.250 is parsed to the float
    value one quarter and forwarded as its canonical rendering 0.25, so
    the token is not forwarded character for character. -/
theorem claim_C5_counterexample :
    (parse_arguments ["--sample", "0.250"]).map (build_cmd "python3")
        = some ["python3", "src/main.py", "--sample", "0.25",
                "--data-path", "data/US_Accidents.csv", "--output-path", "output"]
      ∧ ("0.250" : String) ∉ ["python3", "src/main.py", "--sample", "0.25",
                "--data-path", "data/US_Accidents.csv", "--output-path",
                "output"] := by
  constructor
  · decide
  · decide

/-- C5 amended: the sampling fraction is forwarded value-faithfully,
    not character for character: the wrapper stores the binary64 value
    of the token and places its Python string rendering immediately
    after the sample switch in the delegated argument vector. -/
theorem claim_C5_sample_forwarding (pyExe tok : String) (fr : Frac) (a : Args)
    (hq : parseDecimalFrac tok = some fr)
    (hp : parse_arguments ["--sample", tok] = some a) :
    a.sample = roundToB64 fr
      ∧ ∃ l1 l2, build_cmd pyExe a
          = l1 ++ ["--sample", pyFloatStr (roundToB64 fr)] ++ l2 := by
  unfold parse_arguments at hp
  rw [List.foldlM_cons] at hp
  have h1 : pstep (defaultArgs, Expect.top) "--sample"
      = some (defaultArgs, Expect.vSample) := rfl
  rw [h1, Option.bind_eq_bind] at hp
  simp only [Option.some_bind, List.foldlM_cons, List.foldlM_nil] at hp
  unfold pstep at hp
  dsimp only at hp
  cases hv : valueToken tok with
  | false => rw [hv] at hp; simp at hp
  | true =>
    rw [hv] at hp
    rw [hq] at hp
    simp only [if_true] at hp
    have ha : a = { defaultArgs with sample := roundToB64 fr } := by
      simpa using hp.symm
    subst ha
    refine ⟨rfl, [pyExe, "src/main.py"],
      ["--data-path", defaultArgs.data_path,
       "--output-path", defaultArgs.output_path], ?_⟩
    rw [build_cmd_eq]
    rfl

/-- C5 amended witness: the canonical token 0.25 round-trips and its
    rendering follows the sample switch in the command line. -/
theorem claim_C5_sample_forwarding_witness :
    parseDecimalFrac "0.25" = some { neg := false, num := 25, den := 100 }
      ∧ argsSample25.sample = roundToB64 { neg := false, num := 25, den := 100 }
      ∧ ∃ l1 l2, build_cmd "python3" argsSample25
          = l1 ++ ["--sample", pyFloatStr (roundToB64 { neg := false, num := 25, den := 100 })] ++ l2 := by
  have h := claim_C5_sample_forwarding "python3" "0.25" { neg := false, num := 25, den := 100 }
    argsSample25 (by decide) (by decide)
  exact ⟨by decide, h.1, h.2⟩

/-- C1 counterexample: in the end-to-end scenario with every
    prerequisite present and a child exit status of two, the wrapper
    exits with status one, not two, refuting exit-status propagation. -/
theorem claim_C1_counterexample :
    (main "python3" argvE2E (ChildOutcome.exits 2) wFull).1 = Except.ok 1
      ∧ (Except.ok 1 : Except PyExc ℕ) ≠ Except.ok 2 := by
  constructor
  · decide
  · decide

/-- C1 amended: end-to-end, when the manifest, the delegated script
    and the configured data file all exist and the delegated child
    terminates with exit status N, the wrapper exits with status zero
    when N is zero and with status one when N is nonzero (the nonzero
    value itself is only echoed in the failure diagnostic, not
    propagated). -/
theorem claim_C1_exit_code (pyExe : String) (argv : List String) (a : Args)
    (n : ℕ) (w : World)
    (hparse : parse_arguments argv = some a)
    (hreq : w.fs.pathExists "requirements.txt" = true)
    (hsrc : w.fs.pathExists "src/main.py" = true)
    (hdata : w.fs.pathExists a.data_path = true) :
    (main pyExe argv (ChildOutcome.exits n) w).1
      = Except.ok (if n = 0 then 0 else 1) :=
  main_exits_code pyExe argv a n w hparse hreq hsrc hdata

/-- C1 amended witness: the end-to-end scenario with a succeeding
    child gives wrapper exit status zero. -/
theorem claim_C1_exit_code_witness :
    parse_arguments argvE2E = some argsE2E
      ∧ wFull.fs.pathExists "data/x.csv" = true
      ∧ (main "python3" argvE2E (ChildOutcome.exits 0) wFull).1
          = Except.ok (if 0 = 0 then 0 else 1) :=
  ⟨by decide, by decide,
    claim_C1_exit_code "python3" argvE2E argsE2E 0 wFull (by decide) (by decide)
      (by decide) (by decide)⟩

/-- C9: the wrapper stages run in the order Parse, ValidateEnv,
    ValidateData, Delegate, Report and every failing gate
    short-circuits the rest. First conjunct: when the environment gate
    fails, the wrapper exits with status one and no data-stage,
    delegation-stage (in particular no process spawn) or report-stage
    event ever occurs. Second conjunct: when the environment gate
    passes but the data file is missing (and not named like one of the
    four creatable directories), the wrapper exits with status one and
    no delegation-stage or report-stage event occurs. Third conjunct:
    on the nominal path the event log is exactly banner, start
    timestamp, data report, command echo, spawn, then the report
    events, in that order. -/
theorem claim_C9_stage_order :
    (∀ pyExe argv a oc w, parse_arguments argv = some a → w.events = [] →
        (w.fs.pathExists "requirements.txt" && w.fs.pathExists "src/main.py")
            = false →
        (main pyExe argv oc w).1 = Except.ok 1
          ∧ ∀ e ∈ (main pyExe argv oc w).2.events,
              isDataStage e = false ∧ isDelegateStage e = false
                ∧ isReportStage e = false)
      ∧ (∀ pyExe argv a oc w, parse_arguments argv = some a → w.events = [] →
          (w.fs.pathExists "requirements.txt" && w.fs.pathExists "src/main.py")
              = true →
          w.fs.pathExists a.data_path = false →
          a.data_path ∉ ["data", "output", "output/visualizations",
            "output/sql_results"] →
          (main pyExe argv oc w).1 = Except.ok 1
            ∧ ∀ e ∈ (main pyExe argv oc w).2.events,
                isDelegateStage e = false ∧ isReportStage e = false)
      ∧ (∀ pyExe argv a n w, parse_arguments argv = some a → w.events = [] →
          w.fs.pathExists "requirements.txt" = true →
          w.fs.pathExists "src/main.py" = true →
          w.fs.pathExists "data" = true → w.fs.pathExists "output" = true →
          w.fs.pathExists a.data_path = true →
          main pyExe argv (ChildOutcome.exits n) w
            = (Except.ok (if n = 0 then 0 else 1),
               { fs := w.fs,
                 events := [Event.banner, Event.startedAt,
                     Event.foundDataFile a.data_path (w.fs.getsize a.data_path),
                     Event.executing (build_cmd pyExe (apply_all_policy a)),
                     Event.spawn (build_cmd pyExe (apply_all_policy a))]
                   ++ (if n = 0 then [Event.successMsg, Event.completedAt]
                       else [Event.errPipelineFailed n, Event.failureMsg]) })) := by
  refine ⟨?_, ?_, ?_⟩
  · intro pyExe argv a oc w hparse hev henv
    have h1 : (check_dependencies ((w.emit Event.banner).emit Event.startedAt)).1
        = false := by
      rw [check_dependencies_result]
      simpa using henv
    constructor
    · unfold main
      simp only [hparse]
      rw [h1]
      simp
    · unfold main
      simp only [hparse]
      rw [h1]
      simp only [Bool.not_false, if_pos]
      intro e he
      rcases check_dependencies_events_mem _ e he with hin | hstage
      · simp [hev] at hin
        rcases hin with rfl | rfl <;>
          exact ⟨rfl, rfl, rfl⟩
      · exact envStage_not_later e hstage
  · intro pyExe argv a oc w hparse hev henv hmiss hdir
    have h1 : (check_dependencies ((w.emit Event.banner).emit Event.startedAt)).1
        = true := by
      rw [check_dependencies_result]
      simpa using henv
    have hdp : (apply_all_policy a).data_path = a.data_path :=
      (apply_all_policy_fields a).2.2.2.2.2.2.1
    have h2 : (check_dependencies
          ((w.emit Event.banner).emit Event.startedAt)).2.fs.pathExists
        (apply_all_policy a).data_path = false := by
      rw [hdp]
      cases hx : (check_dependencies
          ((w.emit Event.banner).emit Event.startedAt)).2.fs.pathExists
          a.data_path with
      | false => rfl
      | true =>
        rcases check_dependencies_pathExists_new _ _ hx with hw | hmem
        · rw [World.emit_fs, World.emit_fs] at hw
          rw [hw] at hmiss
          cases hmiss
        · exact absurd hmem hdir
    constructor
    · unfold main
      simp only [hparse]
      rw [h1]
      simp only [Bool.not_true]
      rw [check_data_file_missing _ _ h2]
      rfl
    · unfold main
      simp only [hparse]
      rw [h1]
      simp only [Bool.not_true]
      rw [check_data_file_missing _ _ h2]
      simp only [Bool.not_false, if_pos]
      intro e he
      simp at he
      rcases he with he | rfl
      · rcases check_dependencies_events_mem _ e he with hin | hstage
        · simp [hev] at hin
          rcases hin with rfl | rfl <;> exact ⟨rfl, rfl⟩
        · exact ⟨(envStage_not_later e hstage).2.1, (envStage_not_later e hstage).2.2⟩
      · exact ⟨rfl, rfl⟩
  · intro pyExe argv a n w hparse hev hreq hsrc hdat hout hdata
    exact main_nominal pyExe argv a n w hev hparse hreq hsrc hdat hout hdata

/-- C9 witness: the three conjuncts at concrete worlds: a missing
    manifest short-circuits before the data stage, a missing data file
    short-circuits before delegation, and the nominal end-to-end run
    produces the staged event log with exit status zero. -/
theorem claim_C9_stage_order_witness :
    ((main "python3" [] (ChildOutcome.exits 0) wNoManifest).1 = Except.ok 1
        ∧ ∀ e ∈ (main "python3" [] (ChildOutcome.exits 0) wNoManifest).2.events,
            isDataStage e = false ∧ isDelegateStage e = false
              ∧ isReportStage e = false)
      ∧ ((main "python3" [] (ChildOutcome.exits 0) wBare).1 = Except.ok 1
          ∧ ∀ e ∈ (main "python3" [] (ChildOutcome.exits 0) wBare).2.events,
              isDelegateStage e = false ∧ isReportStage e = false)
      ∧ main "python3" argvE2E (ChildOutcome.exits 0) wFull
          = (Except.ok (if 0 = 0 then 0 else 1),
             { fs := wFull.fs,
               events := [Event.banner, Event.startedAt,
                   Event.foundDataFile argsE2E.data_path
                     (wFull.fs.getsize argsE2E.data_path),
                   Event.executing (build_cmd "python3" (apply_all_policy argsE2E)),
                   Event.spawn (build_cmd "python3" (apply_all_policy argsE2E))]
                 ++ (if 0 = 0 then [Event.successMsg, Event.completedAt]
                     else [Event.errPipelineFailed 0, Event.failureMsg]) }) := by
  refine ⟨?_, ?_, ?_⟩
  · exact claim_C9_stage_order.1 "python3" [] defaultArgs (ChildOutcome.exits 0)
      wNoManifest (by decide) (by decide) (by decide)
  · exact claim_C9_stage_order.2.1 "python3" [] defaultArgs (ChildOutcome.exits 0)
      wBare (by decide) (by decide) (by decide) (by decide) (by decide)
  · exact claim_C9_stage_order.2.2 "python3" argvE2E argsE2E 0 wFull (by decide)
      (by decide) (by decide) (by decide) (by decide) (by decide) (by decide)

end RunWrapper
